import Mathlib

/-!
Verification development for `setup.py` (andybarron/shell), a personal
environment bootstrap script.  The script is embedded shallowly:

* Python `str` values are modelled as Lean `String` (a wrapper around
  `List Char`, matching Python's sequence-of-code-points view);
* the filesystem is a partial map `String → Option String` from paths to
  file contents;
* external process invocations are recorded as trace events; `cmd`
  (which wraps `subprocess.run` and discards the result) contributes its
  events only, while `cmd_output` (which wraps `subprocess.check_output`)
  raises `CalledProcessError` exactly when the oracle exit status is
  nonzero;
* the process working directory and the module-level `_stack` list form
  a `DirSt` record manipulated by `pushd`/`popd`;
* nondeterministic outside inputs (home directory, command outputs and
  exit statuses, environment, `shutil.which` result, prior filesystem)
  are supplied by an `Oracles` record.

OS-level spawn failures, filesystem permission errors and UTF-8 decode
errors are outside the model; Unicode whitespace handling of
`str.strip`/`str.rstrip` is modelled on the full CPython whitespace
code-point list.
-/

namespace ShellSetup

/-- `CONFIG_FILENAME` constant of setup.py (line 10). -/
def CONFIG_FILENAME : String := ".zshrc-base.zsh"

/-- `CONFIG_CONTENTS` constant of setup.py (lines 12-45): the fixed
multi-line configuration template, reproduced verbatim.  The Python
triple-quoted literal begins and ends with a newline, hence the empty
first and last entries. -/
def CONFIG_CONTENTS : String := String.intercalate "\n"
  [ ""
  , "# Andy\x27s base zsh config"
  , ""
  , "# Run the following command to install or update this config:"
  , "# python3 <(curl -sLH \x27Cache-Control: no-cache\x27 https://raw.githubusercontent.com/AndyBarron/shell/main/setup.py)"
  , ""
  , "# init antigen"
  , "source ~/.antigen.zsh"
  , ""
  , "# init oh-my-zsh"
  , "antigen use oh-my-zsh"
  , ""
  , "# default oh-my-zsh plugins"
  , "antigen bundle git"
  , "antigen bundle asdf"
  , "antigen bundle kubectl"
  , ""
  , "# third-party oh-my-zsh plugins"
  , "antigen bundle zsh-users/zsh-autosuggestions"
  , "ZSH_AUTOSUGGEST_STRATEGY=(completion history)"
  , "ZSH_AUTOSUGGEST_USE_ASYNC=true"
  , ""
  , "antigen bundle zsh-users/zsh-completions"
  , "antigen bundle zsh-users/zsh-syntax-highlighting # must be last"
  , ""
  , "# specify theme"
  , "antigen theme romkatv/powerlevel10k"
  , ""
  , "# apply config"
  , "antigen apply"
  , ""
  , "# my settings :)"
  , "export VISUAL=nvim"
  , "" ]

/-- `REQUIRED_TOOLS` tuple of setup.py (lines 47-52). -/
def REQUIRED_TOOLS : List String := ["zsh", "git", "neovim", "byobu"]

/-- Code points of the characters stripped by Python `str.strip()` /
`str.rstrip()` (CPython `Py_UNICODE_ISSPACE`). -/
def pyWhitespaceCodes : List Nat :=
  [9, 10, 11, 12, 13, 28, 29, 30, 31, 32, 133, 160, 5760,
   8192, 8193, 8194, 8195, 8196, 8197, 8198, 8199, 8200, 8201, 8202,
   8232, 8233, 8239, 8287, 12288]

/-- Whether `c` is whitespace for Python `str.strip`-family methods. -/
def isPySpace (c : Char) : Bool := pyWhitespaceCodes.contains c.toNat

/-- Python `str.rstrip()` on a character list. -/
def rstripCh (l : List Char) : List Char := (l.reverse.dropWhile isPySpace).reverse

/-- Python `str.strip()` on a character list. -/
def stripCh (l : List Char) : List Char := rstripCh (l.dropWhile isPySpace)

/-- Python `s.strip()` (both-ends whitespace strip), as applied by
`cmd_output` (setup.py line 67). -/
def pyStrip (s : String) : String := String.mk (stripCh s.data)

/-- Python `s.rstrip()` on a string. -/
def pyRstrip (s : String) : String := String.mk (rstripCh s.data)

/-- Universal-newlines translation performed when Python opens a file in
text mode for reading: CR LF and lone CR both become LF. -/
def translateRead : List Char → List Char
  | [] => []
  | '\r' :: '\n' :: rest => '\n' :: translateRead rest
  | '\r' :: rest => '\n' :: translateRead rest
  | c :: rest => c :: translateRead rest

/-- Splitting a translated character stream into lines the way iterating
a Python text file does: each line keeps its terminating newline; a
final unterminated segment forms a last line. -/
def splitLinesKeep : List Char → List (List Char)
  | [] => []
  | c :: rest =>
    if c = '\n' then ['\n'] :: splitLinesKeep rest
    else
      match splitLinesKeep rest with
      | [] => [[c]]
      | l :: ls => (c :: l) :: ls

/-- Drop the single terminating newline of a line, if present. -/
def dropNl (l : List Char) : List Char :=
  if l.getLast? = some '\n' then l.dropLast else l

/-- The list of lines of a file's text, without newline terminators
(used to state line-level properties of file contents). -/
def lineContents (s : String) : List String :=
  (splitLinesKeep s.data).map (fun l => String.mk (dropNl l))

/-- `zshrc_line` of setup.py line 121: the fixed source directive. -/
def zshrcLine : String := "source ~/" ++ CONFIG_FILENAME

/-- setup.py lines 123-124: whether any line of the shell resource
file, after `rstrip()`, equals the source directive. -/
def foundLine (s : String) : Bool :=
  (splitLinesKeep (translateRead s.data)).any (fun l => rstripCh l == zshrcLine.data)

/-- The config-linker step, setup.py lines 120-128, as a function from
prior `.zshrc` content to new content: append `"\n" ++ zshrcLine ++ "\n"`
when the directive line is absent, leave the content untouched (no write
at all) otherwise. -/
def linker (s : String) : String :=
  if foundLine s then s else s ++ "\n" ++ zshrcLine ++ "\n"

theorem splitLinesKeep_nil : splitLinesKeep [] = [] := rfl

theorem splitLinesKeep_cons_nl (rest : List Char) :
    splitLinesKeep ('\n' :: rest) = ['\n'] :: splitLinesKeep rest := by
  rw [splitLinesKeep]
  simp

theorem splitLinesKeep_cons_ne (c : Char) (rest : List Char) (hc : ¬ c = '\n') :
    splitLinesKeep (c :: rest) =
      match splitLinesKeep rest with
      | [] => [[c]]
      | l :: ls => (c :: l) :: ls := by
  rw [splitLinesKeep, if_neg hc]

theorem splitLinesKeep_ne_nil (c : Char) (rest : List Char) :
    splitLinesKeep (c :: rest) ≠ [] := by
  by_cases hc : c = '\n'
  · subst hc; rw [splitLinesKeep_cons_nl]; simp
  · rw [splitLinesKeep_cons_ne c rest hc]
    cases splitLinesKeep rest <;> simp

theorem splitLinesKeep_append (a b : List Char)
    (ha : a = [] ∨ a.getLast? = some '\n') :
    splitLinesKeep (a ++ b) = splitLinesKeep a ++ splitLinesKeep b := by
  induction a with
  | nil => simp [splitLinesKeep_nil]
  | cons c a ih =>
    rcases ha with ha | ha
    · exact absurd ha (by simp)
    by_cases hc : c = '\n'
    · subst hc
      cases a with
      | nil =>
        rw [List.cons_append, List.nil_append, splitLinesKeep_cons_nl,
          splitLinesKeep_cons_nl, splitLinesKeep_nil]
        simp
      | cons d a2 =>
        have hlast : (d :: a2).getLast? = some '\n' := by
          rwa [List.getLast?_cons_cons] at ha
        rw [List.cons_append, splitLinesKeep_cons_nl, ih (Or.inr hlast),
          splitLinesKeep_cons_nl]
        simp
    · cases a with
      | nil =>
        exfalso
        simp only [List.getLast?_singleton] at ha
        exact hc (by injection ha)
      | cons d a2 =>
        have hlast : (d :: a2).getLast? = some '\n' := by
          rwa [List.getLast?_cons_cons] at ha
        have ihx := ih (Or.inr hlast)
        obtain ⟨l, ls, hsp⟩ : ∃ l ls, splitLinesKeep (d :: a2) = l :: ls := by
          cases hx : splitLinesKeep (d :: a2) with
          | nil => exact absurd hx (splitLinesKeep_ne_nil d a2)
          | cons l ls => exact ⟨l, ls, rfl⟩
        rw [List.cons_append, splitLinesKeep_cons_ne c _ hc, ihx, hsp,
          splitLinesKeep_cons_ne c _ hc, hsp]
        simp

/-- C3 (counterexample): the claim that the appended source directive is
always preceded by exactly one blank line fails when the prior `.zshrc`
content does not end with a newline: for prior content `"abc"` the
directive is absent, yet the relinked file's lines are
`["abc", zshrcLine]` with no blank line before the directive. -/
theorem linker_blank_line_counterexample :
    foundLine "abc" = false ∧
    lineContents (linker "abc") ≠ lineContents "abc" ++ ["", zshrcLine] := by
  constructor
  · decide
  · decide

/-- C3 (amended): when no line of the prior content `rstrip`s to the
directive, the linker appends exactly `"\n" ++ zshrcLine ++ "\n"` to the
unchanged prior content (so exactly one occurrence of the directive is
appended and no existing content is modified or reordered); the
directive line is preceded by exactly one blank line whenever the prior
content is empty or ends with a newline (for prior content not ending in
a newline, the first appended newline merely terminates the previous
line). -/
theorem linker_appends_directive (s : String) (h : foundLine s = false) :
    linker s = s ++ "\n" ++ zshrcLine ++ "\n" ∧
    (s.data = [] ∨ s.data.getLast? = some '\n' →
      lineContents (linker s) = lineContents s ++ ["", zshrcLine]) := by
  have hl : linker s = s ++ "\n" ++ zshrcLine ++ "\n" := by simp [linker, h]
  refine ⟨hl, ?_⟩
  intro hend
  rw [hl]
  unfold lineContents
  have hdata : (s ++ "\n" ++ zshrcLine ++ "\n").data
      = s.data ++ ("\n" ++ zshrcLine ++ "\n").data := by
    simp [String.data_append, List.append_assoc]
  rw [hdata, splitLinesKeep_append _ _ hend, List.map_append]
  have hsuffix : (splitLinesKeep ("\n" ++ zshrcLine ++ "\n").data).map
      (fun l => String.mk (dropNl l)) = ["", zshrcLine] := by decide
  rw [hsuffix]

/-- C3 (witness): instantiation of the amended claim at prior content
`"alpha\n"`. -/
theorem linker_appends_directive_witness :
    foundLine "alpha\n" = false ∧
    linker "alpha\n" = "alpha\n" ++ "\n" ++ zshrcLine ++ "\n" ∧
    lineContents (linker "alpha\n") = lineContents "alpha\n" ++ ["", zshrcLine] := by
  have h := linker_appends_directive "alpha\n" (by decide)
  exact ⟨by decide, h.1, h.2 (by decide)⟩

/-- C4 (confirmed): when some line of the prior shell-resource-file
content, after trimming trailing whitespace, equals the source
directive, the config linker leaves the content (hence the line count)
unchanged: no write is performed. -/
theorem linker_noop_when_found (s : String) (h : foundLine s = true) :
    linker s = s := by
  simp [linker, h]

/-- C4 (witness): instantiation at a file that already contains the
directive line (with trailing whitespace, exercising the `rstrip`). -/
theorem linker_noop_when_found_witness :
    foundLine "source ~/.zshrc-base.zsh  \nalpha\n" = true ∧
    linker "source ~/.zshrc-base.zsh  \nalpha\n" = "source ~/.zshrc-base.zsh  \nalpha\n" :=
  ⟨by decide, linker_noop_when_found _ (by decide)⟩

/-- Whether `c` belongs to Python `string.whitespace`
(`" \t\n\r\x0b\x0c"`), the membership test of `esc` (setup.py
line 56). -/
def isStrWhitespace (c : Char) : Bool :=
  c.toNat == 32 || c.toNat == 9 || c.toNat == 10 || c.toNat == 13 ||
  c.toNat == 11 || c.toNat == 12

/-- Lower-case ASCII hex digit, for `\xHH` escapes. -/
def hexDigit (n : Nat) : Char :=
  if n < 10 then Char.ofNat (48 + n) else Char.ofNat (87 + n)

/-- The single-quote character. -/
def squote : Char := Char.ofNat 39

/-- The double-quote character. -/
def dquote : Char := Char.ofNat 34

/-- The quote character Python `repr` picks for a string: a single
quote, unless the string contains a single quote and no double
quote. -/
def pyReprQuote (l : List Char) : Char :=
  if l.contains squote && !(l.contains dquote) then dquote else squote

/-- Escaping of one character inside a Python `repr` string literal
with quote character `q` (the fragment of CPython behavior relevant to
this script: backslash, the quote character, LF, CR and TAB get
two-character escapes; other control characters get `\xHH`; remaining
characters pass through). -/
def pyReprEscChar (q : Char) (c : Char) : List Char :=
  if c = '\\' then ['\\', '\\']
  else if c = q then ['\\', q]
  else if c = '\n' then ['\\', 'n']
  else if c = '\r' then ['\\', 'r']
  else if c = '\t' then ['\\', 't']
  else if c.toNat < 32 || c.toNat == 127 then
    ['\\', 'x', hexDigit (c.toNat / 16), hexDigit (c.toNat % 16)]
  else [c]

/-- Python `repr(s)` for a string. -/
def pyRepr (s : String) : String :=
  let q := pyReprQuote s.data
  String.mk (q :: ((s.data.map (pyReprEscChar q)).flatten ++ [q]))

/-- `esc` of setup.py lines 55-57: a command part is replaced by its
Python `repr` when it contains a `string.whitespace` character, and is
kept verbatim otherwise. -/
def esc (s : String) : String :=
  if s.data.any isStrWhitespace then pyRepr s else s

/-- The `RUN:`-prefixed line printed to stdout before each external
invocation (setup.py lines 61 and 66); `print` joins its arguments with
single spaces. -/
def logLine (parts : List String) : String :=
  String.intercalate " " ("RUN:" :: parts.map esc)

/-- Observable events of a run: lines printed to stdout and external
process executions. -/
inductive Event where
  | log (line : String)
  | exec (parts : List String)
deriving DecidableEq

/-- `cmd` of setup.py lines 60-62: print the escaped command line, then
run the process.  The `subprocess.run` result (hence the exit status)
is discarded, so `cmd` contributes trace events only and never
raises on a nonzero exit status. -/
def cmdEvents (parts : List String) : List Event :=
  [Event.log (logLine parts), Event.exec parts]

/-- Characters a POSIX shell reads literally in an unquoted word
(conservative set: alphanumerics and common punctuation with no
special meaning to the shell). -/
def bareSafe (c : Char) : Bool :=
  c.isAlphanum || c == '_' || c == '-' || c == '.' || c == '/' ||
  c == ':' || c == '=' || c == '+' || c == ',' || c == '%' || c == '@'

/-- Modelled from the spec: "shell-quoted command line".  Parser state
for a single shell word; `inQuote` tracks an open single-quoted span.
Bare shell-neutral characters read literally, single-quoted spans read
verbatim, and anything else (an unquoted metacharacter such as `$`,
whitespace, an unbalanced quote) is rejected. -/
def shellWordAux (inQuote : Bool) : List Char → Option (List Char)
  | [] => if inQuote then none else some []
  | c :: rest =>
    if inQuote then
      if c = squote then shellWordAux false rest
      else (shellWordAux true rest).map (fun l => c :: l)
    else
      if c = squote then shellWordAux true rest
      else if bareSafe c then (shellWordAux false rest).map (fun l => c :: l)
      else none

/-- Modelled from the spec: the string a logged word denotes to a POSIX
shell when that word is a safe quoting of exactly one word; `none` when
the word is empty (it would vanish from a space-joined command line) or
contains unquoted shell metacharacters. -/
def shellParseWord (l : List Char) : Option (List Char) :=
  if l = [] then none else shellWordAux false l

theorem bareSafe_not_strWhitespace (c : Char) (h : bareSafe c = true) :
    isStrWhitespace c = false := by
  by_contra hw
  rw [Bool.not_eq_false] at hw
  have hmem : c.toNat = 32 ∨ c.toNat = 9 ∨ c.toNat = 10 ∨ c.toNat = 13 ∨
      c.toNat = 11 ∨ c.toNat = 12 := by
    have := hw
    simp [isStrWhitespace] at this
    tauto
  have hofnat : Char.ofNat c.toNat = c := Char.ofNat_toNat c
  rcases hmem with h1 | h1 | h1 | h1 | h1 | h1 <;>
    (rw [← hofnat, h1] at h; exact absurd h (by decide))

theorem shellWordAux_of_all_bareSafe (l : List Char) (h : l.all bareSafe = true) :
    shellWordAux false l = some l := by
  induction l with
  | nil => rfl
  | cons c rest ih =>
    rw [List.all_cons, Bool.and_eq_true] at h
    have hc : ¬ c = squote := by
      intro he; subst he; exact absurd h.1 (by decide)
    rw [shellWordAux]
    simp [hc, h.1, ih h.2]

/-- C9 (counterexample): `esc` is not a shell-safe quoting for every
part.  The part `"$HOME"` contains no whitespace, so it is logged
verbatim, but as an unquoted shell word it contains the metacharacter
`$` and does not denote the literal string `$HOME`. -/
theorem esc_not_shell_safe_counterexample :
    esc "$HOME" = "$HOME" ∧
    shellParseWord (esc "$HOME").data ≠ some ("$HOME" : String).data := by
  exact ⟨by decide, by decide⟩

/-- C9 (amended): each invocation through `cmd` logs the space-joined,
`esc`-quoted command line to stdout before the execution event, and the
logged form of a part is a shell-safe quoting of that part whenever the
part is nonempty and consists only of shell-neutral characters; it is
not a shell-safe quoting in general (see the counterexample: parts
without whitespace are logged verbatim, even when they contain shell
metacharacters). -/
theorem cmd_logs_before_exec (parts : List String) :
    cmdEvents parts = [Event.log (logLine parts), Event.exec parts] ∧
    (∀ p : String, p.data ≠ [] → p.data.all bareSafe = true →
      esc p = p ∧ shellParseWord (esc p).data = some p.data) := by
  refine ⟨rfl, ?_⟩
  intro p hne hall
  have hnows : p.data.any isStrWhitespace = false := by
    rw [List.any_eq_false]
    intro x hx
    rw [List.all_eq_true] at hall
    simp [bareSafe_not_strWhitespace x (hall x hx)]
  have hesc : esc p = p := by simp [esc, hnows]
  refine ⟨hesc, ?_⟩
  rw [hesc, shellParseWord, if_neg hne]
  exact shellWordAux_of_all_bareSafe p.data hall

/-- C9 (witness): instantiation at the invocation
`["git", "describe"]` and the part `"git"`. -/
theorem cmd_logs_before_exec_witness :
    cmdEvents ["git", "describe"] =
      [Event.log (logLine ["git", "describe"]), Event.exec ["git", "describe"]] ∧
    ("git" : String).data ≠ [] ∧ ("git" : String).data.all bareSafe = true ∧
    esc "git" = "git" ∧ shellParseWord (esc "git").data = some ("git" : String).data := by
  have h := cmd_logs_before_exec ["git", "describe"]
  have h2 := h.2 "git" (by decide) (by decide)
  exact ⟨h.1, by decide, by decide, h2.1, h2.2⟩

/-- The filesystem as a partial map from paths to file contents;
`fsWrite` is `open(p, "w")` followed by `f.write(v)`: it overwrites any
prior content. -/
def fsWrite (p v : String) (fs : String → Option String) : String → Option String :=
  fun q => if q = p then some v else fs q

/-- `Path.home() / name`, rendered as a string. -/
def pathJoin (home name : String) : String := home ++ "/" ++ name

/-- The remote asset fetcher (setup.py lines 108-113): `antigen_src` is
the value of `cmd_output(curl ...)`, which is the decoded response
`body` passed through `.strip()` (setup.py line 67), and is written to
`~/.antigen.zsh`, overwriting any prior content. -/
def antigenStep (home body : String) (fs : String → Option String) :
    String → Option String :=
  fsWrite (pathJoin home ".antigen.zsh") (pyStrip body) fs

/-- The config writer (setup.py lines 115-118): write `CONFIG_CONTENTS`
to `~/` + `CONFIG_FILENAME`, overwriting any prior content. -/
def writeBaseConfig (home : String) (fs : String → Option String) :
    String → Option String :=
  fsWrite (pathJoin home CONFIG_FILENAME) CONFIG_CONTENTS fs

/-- C2 (counterexample): the fetched body is not written byte-for-byte.
For response body `"x\n"` the file afterwards holds `"x"` — the
trailing newline is removed by the `.strip()` inside `cmd_output` — so
its contents do not equal the fetched bootstrap script text. -/
theorem antigen_not_verbatim_counterexample :
    antigenStep "/home/user" "x\n" (fun _ => none)
      (pathJoin "/home/user" ".antigen.zsh") = some "x" ∧
    (some "x" : Option String) ≠ some "x\n" := by
  exact ⟨by decide, by decide⟩

/-- C2 (amended): for every response body and every prior filesystem,
the remote asset fetcher overwrites `~/.antigen.zsh` with the response
body stripped of leading and trailing whitespace (`cmd_output` applies
`.strip()` to the decoded body); the contents equal the body verbatim
exactly when the body neither starts nor ends with whitespace. -/
theorem antigen_writes_stripped_body (home body : String)
    (fs : String → Option String) :
    antigenStep home body fs (pathJoin home ".antigen.zsh") = some (pyStrip body) := by
  simp [antigenStep, fsWrite]

/-- C7 (confirmed): for every prior filesystem (any prior contents of
the base-config file, including its absence), after the config-writer
step the base-config file's contents are exactly `CONFIG_CONTENTS`: the
write unconditionally overwrites prior content. -/
theorem base_config_always_template (home : String) (fs : String → Option String) :
    writeBaseConfig home fs (pathJoin home CONFIG_FILENAME) = some CONFIG_CONTENTS := by
  simp [writeBaseConfig, fsWrite]

/-- The process working directory together with the module-level
`_stack` list of setup.py line 70. -/
structure DirSt where
  cwd : String
  stack : List String
deriving DecidableEq

/-- `pushd` (setup.py lines 73-76): `_stack.append(getcwd())` then
`chdir(dir)`. -/
def pushd (dir : String) (st : DirSt) : DirSt := ⟨dir, st.cwd :: st.stack⟩

/-- `popd` (setup.py lines 78-79): `chdir(_stack.pop())`; `none` models
the `IndexError` raised by `pop` on an empty stack. -/
def popd (st : DirSt) : Option DirSt :=
  match st.stack with
  | [] => none
  | top :: rest => some ⟨top, rest⟩

/-- Python exceptions relevant to the script. -/
inductive PyErr where
  | calledProcessError
  | keyError
  | indexError
deriving DecidableEq

/-- The scoped part of the plugin-manager provisioning step (setup.py
lines 93-98): `pushd` into the checkout directory, run the body (the
`git describe` tag query via `cmd_output` and the `git checkout` via
`cmd`), then `popd` in a `finally` block.  `bodyErr` abstracts whether
the body raises (the body never changes the directory state); whatever
it is, the `finally` `popd` runs before the error propagates. -/
def asdfUpdate (dir : String) (st : DirSt) (bodyErr : Option PyErr) :
    DirSt × Option PyErr :=
  let st1 := pushd dir st
  match popd st1 with
  | some st2 => (st2, bodyErr)
  | none => (st1, some PyErr.indexError)

/-- Outside inputs of one run of `main`: the home directory, the
initial working directory, whether `~/.asdf` already is a directory,
the exit statuses of the external processes (those of `cmd`-run
processes are discarded by the script and are carried here only so that
their irrelevance can be stated), the decoded outputs of the two
`cmd_output` calls, the prior filesystem, the `SHELL` environment
variable (absent means `environ["SHELL"]` raises `KeyError`) and the
result of `shutil.which("zsh")` (`none` means not found). -/
structure Oracles where
  home : String
  cwd0 : String
  asdfIsDir : Bool
  updateStatus : Nat
  installStatus : Nat
  cloneStatus : Nat
  checkoutStatus : Nat
  touchStatus : Nat
  mkdirStatus : Nat
  chshStatus : Nat
  describeStatus : Nat
  describeOut : String
  curlStatus : Nat
  curlOut : String
  fs0 : String → Option String
  envSHELL : Option String
  whichZsh : Option String

/-- How one run of `main` terminates: normally, by an uncaught
propagated exception, or by the explicit `sys.exit` (which prints its
string argument and exits with status 1). -/
inductive MainResult where
  | done
  | raised (e : PyErr)
  | exited (code : Nat) (msg : String)
deriving DecidableEq

/-- The observable outcome of a run of `main`: its stdout/exec trace,
how it terminated, the final filesystem and the final directory
state. -/
structure MOut where
  trace : List Event
  result : MainResult
  fs : String → Option String
  dirst : DirSt

/-- Whether an event is an execution of the shell-change command
`chsh`. -/
def isChshExec (e : Event) : Bool :=
  match e with
  | Event.exec ps => ps.head? == some "chsh"
  | Event.log _ => false

/-- Whether a trace contains an execution of `chsh`. -/
def chshInvoked (tr : List Event) : Bool := tr.any isChshExec

/-- Everything `main` (setup.py lines 82-140) does after the
tool-installer step (whose trace is unconditional and is prefixed by
`mainRun`).  `err3` is the error propagating out of the scoped asdf
update, if any.  The `git describe` invocation is logged and run before
the `git checkout` invocation because Python evaluates the
`cmd_output(...)` argument first; on a nonzero describe status
`check_output` raises and the checkout never runs.  The modelled
effects of the `touch` invocation (create an empty file if absent) come
from its documented behavior; `mkdir -p` touches no file contents. -/
def mainCore (o : Oracles) (err3 : Option PyErr) :
    List Event × MainResult × (String → Option String) :=
  let asdfPath := pathJoin o.home ".asdf"
  let zshrcPath := pathJoin o.home ".zshrc"
  let sshPath := pathJoin o.home ".ssh"
  let antigenPath := pathJoin o.home ".antigen.zsh"
  let configPath := pathJoin o.home CONFIG_FILENAME
  let ev2 := if o.asdfIsDir then []
    else cmdEvents ["git", "clone", "https://github.com/asdf-vm/asdf.git", asdfPath]
  let ev3 := [Event.log "Updating asdf"]
    ++ cmdEvents ["git", "describe", "--abbrev=0", "--tags"]
    ++ (if o.describeStatus = 0 then cmdEvents ["git", "checkout", pyStrip o.describeOut] else [])
  let pre := ev2 ++ ev3
  match err3 with
  | some e => (pre, MainResult.raised e, o.fs0)
  | none =>
    let ev4 := [Event.log "Making sure important files exist"]
      ++ cmdEvents ["touch", zshrcPath] ++ cmdEvents ["mkdir", "-p", sshPath]
    let fs1 := match o.fs0 zshrcPath with
      | none => fsWrite zshrcPath "" o.fs0
      | some _ => o.fs0
    let ev5 := [Event.log ("Installing latest version of Antigen to " ++ antigenPath)]
      ++ cmdEvents ["curl", "-sLH", "Cache-Control: no-cache", "https://git.io/antigen"]
    if o.curlStatus = 0 then
      let fs2 := antigenStep o.home o.curlOut fs1
      let ev6 := [Event.log ("Creating/updating zsh base config at " ++ configPath)]
      let fs3 := writeBaseConfig o.home fs2
      let ev7 := [Event.log "Making sure .zshrc reads from base config"]
      let content := (fs3 zshrcPath).getD ""
      let fs4 := if foundLine content then fs3 else fsWrite zshrcPath (linker content) fs3
      let ev7b := if foundLine content then [] else [Event.log "Adding source line to .zshrc"]
      let trPre := pre ++ ev4 ++ ev5 ++ ev6 ++ ev7 ++ ev7b
      match o.whichZsh with
      | none => (trPre, MainResult.exited 1 "Unable to change default shell!", fs4)
      | some zp =>
        let ev8 := [Event.log "Checking default shell"]
        match o.envSHELL with
        | none => (trPre ++ ev8, MainResult.raised PyErr.keyError, fs4)
        | some sh =>
          let ev8b := if sh ≠ "" ∧ sh ≠ zp then
              [Event.log "Changing default shell to zsh"] ++ cmdEvents ["chsh", "-s", zp]
            else []
          (trPre ++ ev8 ++ ev8b
            ++ [Event.log "Done! You probably have to log out and back in again. Enjoy!"],
           MainResult.done, fs4)
    else (pre ++ ev4 ++ ev5, MainResult.raised PyErr.calledProcessError, fs1)

/-- One run of `main` (setup.py lines 82-140).  The tool-installer
step (lines 83-85) runs unconditionally first; the scoped asdf update
supplies the final directory state and the error, if any, that
propagates out of it. -/
def mainRun (o : Oracles) : MOut :=
  let st0 : DirSt := ⟨o.cwd0, []⟩
  let bodyErr : Option PyErr :=
    if o.describeStatus = 0 then none else some PyErr.calledProcessError
  let stepRes := asdfUpdate (pathJoin o.home ".asdf") st0 bodyErr
  let core := mainCore o stepRes.2
  { trace := Event.log ("Installing required tools: " ++ String.intercalate ", " REQUIRED_TOOLS)
      :: (cmdEvents ["sudo", "apt", "update"]
        ++ cmdEvents (["sudo", "apt", "install"] ++ REQUIRED_TOOLS)
        ++ Event.log "Checking for asdf" :: core.1)
    result := core.2.1
    fs := core.2.2
    dirst := stepRes.1 }

/-- C1 (confirmed): the scoped directory change of the plugin-manager
provisioning step is always undone.  For every run of `main`, the final
directory state (working directory and `_stack`) equals the initial
one, and for every initial state and every body outcome — including a
raising tag query or checkout — `asdfUpdate` restores the state exactly
while letting the error propagate. -/
theorem asdf_restores_working_directory :
    (∀ o : Oracles, (mainRun o).dirst = ⟨o.cwd0, []⟩) ∧
    (∀ (dir : String) (st : DirSt) (e : Option PyErr), asdfUpdate dir st e = (st, e)) := by
  exact ⟨fun o => rfl, fun dir st e => rfl⟩

/-- C8 (confirmed): for every oracle — in particular for every
combination of exit statuses of the two installer invocations — the run
starts by logging and invoking `sudo apt update`, then logging and
invoking a single bulk `sudo apt install` covering the whole
`REQUIRED_TOOLS` list, and then proceeds to the next step (the asdf
check); moreover the run's outcome does not depend on the two
installer exit statuses at all, since `cmd` discards them. -/
theorem installer_bulk_then_continues :
    (∀ o : Oracles, ∃ rest : List Event,
      (mainRun o).trace =
        Event.log ("Installing required tools: " ++ String.intercalate ", " REQUIRED_TOOLS)
        :: Event.log (logLine ["sudo", "apt", "update"])
        :: Event.exec ["sudo", "apt", "update"]
        :: Event.log (logLine (["sudo", "apt", "install"] ++ REQUIRED_TOOLS))
        :: Event.exec (["sudo", "apt", "install"] ++ REQUIRED_TOOLS)
        :: Event.log "Checking for asdf" :: rest) ∧
    (∀ (o : Oracles) (s s' : Nat),
      mainRun { o with updateStatus := s, installStatus := s' } = mainRun o) := by
  constructor
  · intro o
    exact ⟨(mainCore o (asdfUpdate (pathJoin o.home ".asdf") ⟨o.cwd0, []⟩
      (if o.describeStatus = 0 then none else some PyErr.calledProcessError)).2).1, rfl⟩
  · intro o s s'
    rfl

theorem chshInvoked_append (a b : List Event) :
    chshInvoked (a ++ b) = (chshInvoked a || chshInvoked b) := by
  simp [chshInvoked, List.any_append]

/-- A concrete oracle used to instantiate the universally quantified
theorems: everything succeeds, `~/.zshrc` starts absent, `SHELL` is
`/bin/bash` and `zsh` resolves to `/usr/bin/zsh`. -/
def oBase : Oracles where
  home := "/home/user"
  cwd0 := "/home/user"
  asdfIsDir := true
  updateStatus := 0
  installStatus := 0
  cloneStatus := 0
  checkoutStatus := 0
  touchStatus := 0
  mkdirStatus := 0
  chshStatus := 0
  describeStatus := 0
  describeOut := "v0.14.1\n"
  curlStatus := 0
  curlOut := "antigen source\n"
  fs0 := fun _ => none
  envSHELL := some "/bin/bash"
  whichZsh := some "/usr/bin/zsh"

/-- C5 (counterexample): the shell-change command is not invoked for
every `SHELL` value differing from the located path.  With
`SHELL=""` (empty but set) and `zsh` at `/usr/bin/zsh`, the values
differ, yet the run completes normally without ever executing `chsh`:
the guard `if shell and (shell != zsh_path)` is falsy for the empty
string. -/
theorem chsh_empty_shell_counterexample :
    chshInvoked (mainRun { oBase with envSHELL := some "" }).trace = false ∧
    ("" : String) ≠ "/usr/bin/zsh" ∧
    (mainRun { oBase with envSHELL := some "" }).result = MainResult.done := by
  exact ⟨by decide, by decide, by decide⟩

/-- C5 (amended): when the shell binary is located at `zp` and the
`SHELL` environment value is `sh`, the run executes the shell-change
command if and only if `sh` is nonempty and differs from `zp` (the
source guard is `if shell and (shell != zsh_path)`, so an empty `SHELL`
value never triggers an invocation even though it differs from the
located path). -/
theorem chsh_invoked_iff (o : Oracles) (zp sh : String)
    (h1 : o.describeStatus = 0) (h2 : o.curlStatus = 0)
    (h3 : o.whichZsh = some zp) (h4 : o.envSHELL = some sh) :
    (chshInvoked (mainRun o).trace = true ↔ (sh ≠ "" ∧ sh ≠ zp)) := by
  by_cases hsh : sh ≠ "" ∧ sh ≠ zp
  · have htrue : chshInvoked (mainRun o).trace = true := by
      simp only [mainRun, mainCore, asdfUpdate, pushd, popd]
      simp [h1, h2, h3, h4, if_pos hsh]
      split <;> split <;> rfl
    rw [htrue]
    simpa using hsh
  · have hfalse : chshInvoked (mainRun o).trace = false := by
      simp only [mainRun, mainCore, asdfUpdate, pushd, popd]
      simp [h1, h2, h3, h4, if_neg hsh]
      split <;> split <;> rfl
    rw [hfalse]
    simpa using hsh

/-- C5 (witness): instantiation of the amended claim at `oBase`
(`SHELL=/bin/bash`, `zsh` at `/usr/bin/zsh`): the values differ and are
nonempty, and the invocation occurs. -/
theorem chsh_invoked_iff_witness :
    oBase.describeStatus = 0 ∧ oBase.curlStatus = 0 ∧
    oBase.whichZsh = some "/usr/bin/zsh" ∧ oBase.envSHELL = some "/bin/bash" ∧
    chshInvoked (mainRun oBase).trace = true := by
  have h := chsh_invoked_iff oBase "/usr/bin/zsh" "/bin/bash" rfl rfl rfl rfl
  exact ⟨rfl, rfl, rfl, rfl, h.mpr ⟨by decide, by decide⟩⟩

/-- C6 (confirmed): when `shutil.which("zsh")` finds nothing (and the
run reaches that step), the process terminates through the explicit
`sys.exit` with exit status 1 and the diagnostic message, without ever
executing `chsh`; conversely a `sys.exit` termination happens only when
the shell binary was not located, with that status and message — every
other failure surfaces as a propagated (`raised`) error. -/
theorem exit_iff_zsh_missing :
    (∀ o : Oracles, o.describeStatus = 0 → o.curlStatus = 0 → o.whichZsh = none →
      (mainRun o).result = MainResult.exited 1 "Unable to change default shell!" ∧
      chshInvoked (mainRun o).trace = false) ∧
    (∀ (o : Oracles) (c : Nat) (m : String),
      (mainRun o).result = MainResult.exited c m →
      o.whichZsh = none ∧ c = 1 ∧ m = "Unable to change default shell!") := by
  constructor
  · intro o h1 h2 h3
    constructor
    · simp only [mainRun, mainCore, asdfUpdate, pushd, popd]
      simp [h1, h2, h3]
    · simp only [mainRun, mainCore, asdfUpdate, pushd, popd]
      simp [h1, h2, h3]
      split <;> split <;> rfl
  · intro o c m h
    simp only [mainRun, mainCore, asdfUpdate, pushd, popd] at h
    by_cases hd : o.describeStatus = 0
    · by_cases hc : o.curlStatus = 0
      · cases hz : o.whichZsh with
        | none =>
          simp [hd, hc, hz] at h
          exact ⟨rfl, h.1.symm, h.2.symm⟩
        | some zp =>
          cases he : o.envSHELL with
          | none => simp [hd, hc, hz, he] at h
          | some sh => simp [hd, hc, hz, he] at h
      · simp [hd, hc] at h
    · simp [hd] at h

/-- C6 (witness): instantiation at an oracle where `zsh` is not
located. -/
theorem exit_iff_zsh_missing_witness :
    ({ oBase with whichZsh := none } : Oracles).describeStatus = 0 ∧
    ({ oBase with whichZsh := none } : Oracles).curlStatus = 0 ∧
    ({ oBase with whichZsh := none } : Oracles).whichZsh = none ∧
    (mainRun { oBase with whichZsh := none }).result =
      MainResult.exited 1 "Unable to change default shell!" ∧
    chshInvoked (mainRun { oBase with whichZsh := none }).trace = false := by
  have h := exit_iff_zsh_missing.1 { oBase with whichZsh := none } rfl rfl rfl
  exact ⟨rfl, rfl, rfl, h.1, h.2⟩

/-- C10 (confirmed): when the shell binary is located but the `SHELL`
environment variable is absent, `environ["SHELL"]` raises a `KeyError`
that propagates uncaught — the run terminates as a raised error, not
through the custom-message `sys.exit` and not as a silent normal
completion, and `chsh` is never executed. -/
theorem missing_shell_env_keyerror (o : Oracles) (zp : String)
    (h1 : o.describeStatus = 0) (h2 : o.curlStatus = 0)
    (h3 : o.whichZsh = some zp) (h4 : o.envSHELL = none) :
    (mainRun o).result = MainResult.raised PyErr.keyError ∧
    MainResult.raised PyErr.keyError ≠
      MainResult.exited 1 "Unable to change default shell!" ∧
    MainResult.raised PyErr.keyError ≠ MainResult.done ∧
    chshInvoked (mainRun o).trace = false := by
  refine ⟨?_, by decide, by decide, ?_⟩
  · simp only [mainRun, mainCore, asdfUpdate, pushd, popd]
    simp [h1, h2, h3, h4]
  · simp only [mainRun, mainCore, asdfUpdate, pushd, popd]
    simp [h1, h2, h3, h4]
    split <;> split <;> rfl

/-- C10 (witness): instantiation at an oracle with `SHELL` unset. -/
theorem missing_shell_env_keyerror_witness :
    ({ oBase with envSHELL := none } : Oracles).describeStatus = 0 ∧
    ({ oBase with envSHELL := none } : Oracles).curlStatus = 0 ∧
    ({ oBase with envSHELL := none } : Oracles).whichZsh = some "/usr/bin/zsh" ∧
    ({ oBase with envSHELL := none } : Oracles).envSHELL = none ∧
    (mainRun { oBase with envSHELL := none }).result = MainResult.raised PyErr.keyError ∧
    chshInvoked (mainRun { oBase with envSHELL := none }).trace = false := by
  have h := missing_shell_env_keyerror { oBase with envSHELL := none }
    "/usr/bin/zsh" rfl rfl rfl rfl
  exact ⟨rfl, rfl, rfl, rfl, h.1, h.2.2.2⟩

end ShellSetup
